import Mathlib

/-!
Verification of the callback-bridging and resource-lifecycle discipline of the
phidget-rs channel types (`TemperatureSensor`, `SoundSensor`).

The embedding is a shallow one: each Rust method becomes a Lean function that
threads the managed-side state explicitly and returns, besides its result, the
list of observable effects it performs (native calls, context allocations,
context releases, user-closure invocations).  Native calls that return a status
code take that code as an explicit input (the environment's response), and
out-parameters written by the native library are likewise inputs.

Raw pointers are modelled as natural numbers, with `0` playing the role of the
null pointer.  Heap allocation of a callback context (`Box::into_raw`) is
modelled by a monotone allocator (`World`): every allocation yields a fresh,
never-before-seen nonzero address.  This is the standard abstraction that
identifies an address with its allocation, so "released at most once" speaks
about registrations rather than about recycled numeric addresses.

`f64` payload values are only ever passed through unchanged by the code under
study (no arithmetic is performed on them), so they are modelled by an opaque
pass-through carrier type, here `Int`.
-/

/-- Raw machine address; `0` is the null pointer. -/
abbrev Ptr := Nat

/-- Carrier for `f64` payload values.  The code under study never computes with
them, it only passes them through, so an opaque countable carrier is faithful. -/
abbrev F64 := Int

/-- Observable effects of the managed side, in program order: calls into the
native phidget22 library, managed-side context allocations and releases, and
invocations of the user-registered closures (identified by the context address
they were registered under, together with the arguments they receive). -/
inductive Event where
  | nativeCreate
  | nativeDelete
  | nativeGetAttached
  | nativeClose
  | nativeSetTempChangeHandler (hasFn : Bool) (ctx : Ptr)
  | nativeSetSPLChangeHandler (hasFn : Bool) (ctx : Ptr)
  | nativeSetAttachHandler (hasFn : Bool) (ctx : Ptr)
  | nativeSetDetachHandler (hasFn : Bool) (ctx : Ptr)
  | allocCtx (ctx : Ptr)
  | releaseCtx (ctx : Ptr)
  | invokeTempCb (ctx : Ptr) (chan : Ptr) (temperature : F64)
  | invokeSPLCb (ctx : Ptr) (chan : Ptr) (db dbA dbC : F64) (octaves : List F64)
  | invokeAttachCb (ctx : Ptr) (phid : Ptr)
  | invokeDetachCb (ctx : Ptr) (phid : Ptr)
deriving DecidableEq, Repr

/-- Monotone allocator for callback-context addresses: `nextPtr` is the next
fresh heap address, always nonzero. -/
structure World where
  nextPtr : Ptr
deriving DecidableEq, Repr

/-- Initial allocator state: the first allocation returns address `1`. -/
def World.init : World := ⟨1⟩

/-- Allocate a fresh context address (`Box::into_raw` of a fresh double box). -/
def World.alloc (w : World) : Ptr × World := (w.nextPtr, ⟨w.nextPtr + 1⟩)

/-- Modelled from the spec: `check_ret` (and `ReturnCode::result`) live in the
crate root, which is not among the given sources.  Per the spec, every native
call returns a status code and the bridge translates non-success codes into a
typed error carrying the original numeric code; `0` is the success code. -/
def check_ret (rc : Int) : Except Int Unit :=
  if rc = 0 then Except.ok () else Except.error rc

/-- Modelled from the spec: `crate::drop_cb` (crate root, not among the given
sources), used by `SoundSensor`'s `Drop` impl.  Given the optional stored raw
context address of a slot, it reconstructs the doubly-boxed closure and lets
normal destruction run, i.e. it releases the context if one is stored and does
nothing otherwise. -/
def drop_cb (ctx : Option Ptr) : List Event :=
  match ctx with
  | some p => [Event.releaseCtx p]
  | none => []

/-- Modelled from the spec: `Phidget::is_open` from the capability trait in the
crate root (not among the given sources): a native call querying the attached
state, its status translated as usual and the queried flag returned on
success. -/
def Phidget.is_open (attachedOut : Bool) (rc : Int) : Except Int Bool × List Event :=
  (match check_ret rc with
   | Except.ok _ => Except.ok attachedOut
   | Except.error e => Except.error e,
   [Event.nativeGetAttached])

/-- Modelled from the spec: `Phidget::close` from the capability trait in the
crate root (not among the given sources): a native close call with its status
translated as usual. -/
def Phidget.close (rc : Int) : Except Int Unit × List Event :=
  (check_ret rc, [Event.nativeClose])

deriving instance DecidableEq for Except

/-- Result of a registration method: translated native status, updated sensor
state, updated allocator, and the effect trace of the call. -/
structure RegOut (σ : Type) where
  ret : Except Int Unit
  state : σ
  world : World
  events : List Event
deriving DecidableEq, Repr

/-- Result of a handler-removal method (no allocation takes place). -/
structure RemOut (σ : Type) where
  ret : Except Int Unit
  state : σ
  events : List Event
deriving DecidableEq, Repr

/-- Outcome of a Rust call that may panic instead of returning. -/
inductive CallOutcome (α : Type) where
  | ret (v : Except Int α)
  | panicked (msg : String)
deriving DecidableEq, Repr

/-- Outcome of a trampoline invocation: either it returns normally having
performed a list of effects, or it panics (`expect` failure). -/
inductive TrampolineOut where
  | ok (events : List Event)
  | panicked (msg : String)
deriving DecidableEq, Repr

/-! ## `TemperatureSensor` (src/temperature_sensor.rs) -/

/-- `TemperatureSensor`: handle to the phidget22 channel plus the optional
double-boxed temperature-change callback context. -/
structure TemperatureSensor where
  chan : Ptr
  cb : Option Ptr
deriving DecidableEq, Repr

/-- `TemperatureSensor::new`: issues the native create call and returns `Self`
with `cb = None`.  The native status code `createRc` is an input of the model
but — exactly as in the source, where the return value of
`PhidgetTemperatureSensor_create` is discarded — it does not influence the
result, and the function's type carries no `Result`.  `chanOut` is the handle
the native library writes through the out-parameter. -/
def TemperatureSensor.new (chanOut : Ptr) (createRc : Int) : TemperatureSensor × List Event :=
  let _ := createRc
  ({ chan := chanOut, cb := none }, [Event.nativeCreate])

/-- `TemperatureSensor::on_temperature_change` trampoline: if the context is
null, nothing happens; otherwise the view sensor `Self { chan, cb: None }` is
built, the closure is invoked once with it and the received temperature, and
the view is `mem::forget`-ed, so no destructor effects are appended. -/
def TemperatureSensor.on_temperature_change (chan ctx : Ptr) (temperature : F64) : List Event :=
  if ctx ≠ 0 then
    let sensor : TemperatureSensor := { chan := chan, cb := none }
    [Event.invokeTempCb ctx sensor.chan temperature]
  else []

/-- `TemperatureSensor::drop_callback`: `self.cb.take()`, and if it held a
context, `Box::from_raw` it and let it drop (one `releaseCtx` effect). -/
def TemperatureSensor.drop_callback (s : TemperatureSensor) : TemperatureSensor × List Event :=
  match s.cb with
  | some ctx => ({ s with cb := none }, [Event.releaseCtx ctx])
  | none => (s, [])

/-- `TemperatureSensor::temperature`: native read with translated status;
`outVal` is what the native call leaves in the out-parameter. -/
def TemperatureSensor.temperature (s : TemperatureSensor) (rc : Int) (outVal : F64) :
    Except Int F64 :=
  let _ := s
  match check_ret rc with
  | Except.ok _ => Except.ok outVal
  | Except.error e => Except.error e

/-- `TemperatureSensor::set_on_temperature_change_handler`: double-box the
closure (`allocCtx`), store the raw address in `self.cb` (overwriting whatever
was there), then issue the native registration call, returning its translated
status. -/
def TemperatureSensor.set_on_temperature_change_handler (s : TemperatureSensor) (w : World)
    (rc : Int) : RegOut TemperatureSensor :=
  let a := w.alloc
  { ret := check_ret rc,
    state := { s with cb := some a.fst },
    world := a.snd,
    events := [Event.allocCtx a.fst, Event.nativeSetTempChangeHandler true a.fst] }

/-- `TemperatureSensor::remove_on_temperature_change_handler`: first the native
deregistration call with `None` function and null context, then
`drop_callback`, returning the translated native status. -/
def TemperatureSensor.remove_on_temperature_change_handler (s : TemperatureSensor) (rc : Int) :
    RemOut TemperatureSensor :=
  let d := TemperatureSensor.drop_callback s
  { ret := check_ret rc,
    state := d.fst,
    events := Event.nativeSetTempChangeHandler false 0 :: d.snd }

/-- `impl Drop for TemperatureSensor`: the native delete call, then
`drop_callback`.  Note: no close call and no query of the open state. -/
def TemperatureSensor.drop (s : TemperatureSensor) : List Event :=
  Event.nativeDelete :: (TemperatureSensor.drop_callback s).snd

/-! ## `SoundSensor` (src/devices/sound_sensor.rs) -/

/-- `SoundSensor`: handle plus the three optional callback context slots. -/
structure SoundSensor where
  chan : Ptr
  cb : Option Ptr
  attach_cb : Option Ptr
  detach_cb : Option Ptr
deriving DecidableEq, Repr

/-- `impl From<PhidgetSoundSensorHandle> for SoundSensor`. -/
def SoundSensor.fromHandle (chan : Ptr) : SoundSensor :=
  { chan := chan, cb := none, attach_cb := none, detach_cb := none }

/-- `SoundSensor::new`: native create call, status discarded exactly as in the
source (`PhidgetSoundSensor_create`'s return value is ignored), then
`Self::from(chan)`. -/
def SoundSensor.new (chanOut : Ptr) (createRc : Int) : SoundSensor × List Event :=
  let _ := createRc
  (SoundSensor.fromHandle chanOut, [Event.nativeCreate])

/-- `SoundSensor::on_attach` trampoline: null context is a no-op; otherwise the
view `Self::from(phid as ...)` is built, the closure invoked once with it, and
the view `mem::forget`-ed. -/
def SoundSensor.on_attach (phid ctx : Ptr) : List Event :=
  if ctx ≠ 0 then
    let sensor := SoundSensor.fromHandle phid
    [Event.invokeAttachCb ctx sensor.chan]
  else []

/-- `SoundSensor::on_detach` trampoline: same shape as `on_attach`. -/
def SoundSensor.on_detach (phid ctx : Ptr) : List Event :=
  if ctx ≠ 0 then
    let sensor := SoundSensor.fromHandle phid
    [Event.invokeDetachCb ctx sensor.chan]
  else []

/-- `SoundSensor::on_spl_change` trampoline.  `octavesMem` is the sequence of
`f64` values readable at the `octaves` pointer; `slice::from_raw_parts(p, 10)`
followed by `try_into` into `&[f64; 10]` is modelled as taking the first 10
readable elements and asserting — with the source's `expect` message — that 10
elements were indeed obtained.  With a null context nothing happens; otherwise
the closure is invoked once with `db`, `db_a`, `db_c` unchanged and the
ten-element array, the view `Self::from(chan)` being `mem::forget`-ed after. -/
def SoundSensor.on_spl_change (chan ctx : Ptr) (db dbA dbC : F64) (octavesMem : List F64) :
    TrampolineOut :=
  if ctx ≠ 0 then
    let octaves := octavesMem.take 10
    if octaves.length = 10 then
      let sensor := SoundSensor.fromHandle chan
      TrampolineOut.ok [Event.invokeSPLCb ctx sensor.chan db dbA dbC octaves]
    else
      TrampolineOut.panicked "Octaves array must be 10 elements long"
  else TrampolineOut.ok []

/-- `SoundSensor::db`: native read with translated status (`outVal` is the
value the native call leaves in the out-parameter). -/
def SoundSensor.db (s : SoundSensor) (rc : Int) (outVal : F64) : Except Int F64 :=
  let _ := s
  match check_ret rc with
  | Except.ok _ => Except.ok outVal
  | Except.error e => Except.error e

/-- `SoundSensor::db_a`: `unimplemented!()` — unconditional panic with message
"not implemented". -/
def SoundSensor.db_a (s : SoundSensor) : CallOutcome F64 :=
  let _ := s
  CallOutcome.panicked "not implemented"

/-- `SoundSensor::db_c`: `unimplemented!()` — unconditional panic with message
"not implemented". -/
def SoundSensor.db_c (s : SoundSensor) : CallOutcome F64 :=
  let _ := s
  CallOutcome.panicked "not implemented"

/-- `SoundSensor::set_on_spl_change_handler`: double-box the closure, store the
raw address in `self.cb` (overwriting whatever was there), then issue the
native registration call and return its translated status. -/
def SoundSensor.set_on_spl_change_handler (s : SoundSensor) (w : World) (rc : Int) :
    RegOut SoundSensor :=
  let a := w.alloc
  { ret := check_ret rc,
    state := { s with cb := some a.fst },
    world := a.snd,
    events := [Event.allocCtx a.fst, Event.nativeSetSPLChangeHandler true a.fst] }

/-- `SoundSensor::set_on_attach_handler`: double-box the closure, issue the
native registration call, propagate a failure with `?` (leaving
`self.attach_cb` untouched and the fresh context unrecorded), and only on
success store the raw address in `self.attach_cb`. -/
def SoundSensor.set_on_attach_handler (s : SoundSensor) (w : World) (rc : Int) :
    RegOut SoundSensor :=
  let a := w.alloc
  match check_ret rc with
  | Except.ok _ =>
    { ret := Except.ok (),
      state := { s with attach_cb := some a.fst },
      world := a.snd,
      events := [Event.allocCtx a.fst, Event.nativeSetAttachHandler true a.fst] }
  | Except.error e =>
    { ret := Except.error e,
      state := s,
      world := a.snd,
      events := [Event.allocCtx a.fst, Event.nativeSetAttachHandler true a.fst] }

/-- `SoundSensor::set_on_detach_handler`: same shape as
`set_on_attach_handler`, acting on `self.detach_cb`. -/
def SoundSensor.set_on_detach_handler (s : SoundSensor) (w : World) (rc : Int) :
    RegOut SoundSensor :=
  let a := w.alloc
  match check_ret rc with
  | Except.ok _ =>
    { ret := Except.ok (),
      state := { s with detach_cb := some a.fst },
      world := a.snd,
      events := [Event.allocCtx a.fst, Event.nativeSetDetachHandler true a.fst] }
  | Except.error e =>
    { ret := Except.error e,
      state := s,
      world := a.snd,
      events := [Event.allocCtx a.fst, Event.nativeSetDetachHandler true a.fst] }

/-- `impl Drop for SoundSensor`: `if let Ok(true) = self.is_open() { let _ =
self.close(); }`, then the native delete call, then `drop_cb` on each of the
three slots (taken in the order `cb`, `attach_cb`, `detach_cb`).
`attachedOut`, `isOpenRc` and `closeRc` are the native side's responses to the
queries the destructor makes. -/
def SoundSensor.drop (s : SoundSensor) (attachedOut : Bool) (isOpenRc closeRc : Int) :
    List Event :=
  let o := Phidget.is_open attachedOut isOpenRc
  let closeEvs :=
    match o.fst with
    | Except.ok true => (Phidget.close closeRc).snd
    | _ => []
  o.snd ++ closeEvs ++ [Event.nativeDelete]
    ++ drop_cb s.cb ++ drop_cb s.attach_cb ++ drop_cb s.detach_cb

/-! ## Managed-side operation sequences on a `TemperatureSensor`

For the safety claim about release-at-most-once we close the model under
arbitrary interleavings of the two managed-side mutating operations followed by
the destructor. -/

/-- A managed-side mutating operation on a `TemperatureSensor`, carrying the
status code the native library answers with. -/
inductive TempOp where
  | setHandler (rc : Int)
  | removeHandler (rc : Int)
deriving DecidableEq, Repr

/-- State, allocator and accumulated trace resulting from a run. -/
structure RunOut where
  state : TemperatureSensor
  world : World
  events : List Event
deriving DecidableEq, Repr

/-- One managed-side operation. -/
def TemperatureSensor.step (s : TemperatureSensor) (w : World) : TempOp → RunOut
  | TempOp.setHandler rc =>
    let o := TemperatureSensor.set_on_temperature_change_handler s w rc
    { state := o.state, world := o.world, events := o.events }
  | TempOp.removeHandler rc =>
    let o := TemperatureSensor.remove_on_temperature_change_handler s rc
    { state := o.state, world := w, events := o.events }

/-- A sequence of managed-side operations, accumulating the effect trace. -/
def TemperatureSensor.run (s : TemperatureSensor) (w : World) : List TempOp → RunOut
  | [] => { state := s, world := w, events := [] }
  | op :: ops =>
    let o := TemperatureSensor.step s w op
    let rest := TemperatureSensor.run o.state o.world ops
    { state := rest.state, world := rest.world, events := o.events ++ rest.events }

/-- Full lifecycle trace: construction, any sequence of managed-side
operations, then the destructor. -/
def TemperatureSensor.lifecycle (chanOut : Ptr) (createRc : Int) (ops : List TempOp) :
    List Event :=
  let n := TemperatureSensor.new chanOut createRc
  let r := TemperatureSensor.run n.fst World.init ops
  n.snd ++ r.events ++ TemperatureSensor.drop r.state

/-- Number of times the context at address `p` is released in a trace. -/
def releases (tr : List Event) (p : Ptr) : Nat :=
  tr.countP (fun e => e = Event.releaseCtx p)

/-- Invariant tying the managed state, the allocator and the trace so far:
no context has been released twice, the context currently stored in the slot
was allocated and not yet released, and addresses not yet handed out by the
allocator have never been released. -/
def ReleaseInv (s : TemperatureSensor) (w : World) (tr : List Event) : Prop :=
  (∀ p, releases tr p ≤ 1)
  ∧ (∀ p, s.cb = some p → p < w.nextPtr ∧ releases tr p = 0)
  ∧ (∀ p, w.nextPtr ≤ p → releases tr p = 0)

/-! ## Counting lemmas for `releases` -/

theorem releases_nil (p : Ptr) : releases [] p = 0 := rfl

theorem releases_append (l₁ l₂ : List Event) (p : Ptr) :
    releases (l₁ ++ l₂) p = releases l₁ p + releases l₂ p :=
  List.countP_append _ _ _

theorem releases_cons (e : Event) (l : List Event) (p : Ptr) :
    releases (e :: l) p = releases l p + (if e = Event.releaseCtx p then 1 else 0) := by
  simp [releases, List.countP_cons]

/-! ## The release-at-most-once invariant (preservation lemmas) -/

theorem releaseInv_step (s : TemperatureSensor) (w : World) (tr : List Event) (op : TempOp)
    (h : ReleaseInv s w tr) :
    ReleaseInv (TemperatureSensor.step s w op).state (TemperatureSensor.step s w op).world
      (tr ++ (TemperatureSensor.step s w op).events) := by
  obtain ⟨h1, h2, h3⟩ := h
  cases op with
  | setHandler rc =>
    have hev : ∀ p, releases (TemperatureSensor.step s w (TempOp.setHandler rc)).events p = 0 := by
      intro p
      simp [TemperatureSensor.step, TemperatureSensor.set_on_temperature_change_handler,
        World.alloc, releases_cons, releases_nil]
    refine ⟨?_, ?_, ?_⟩
    · intro p
      rw [releases_append, hev p]
      exact h1 p
    · intro p hp
      have hpw : w.nextPtr = p := by
        simpa [TemperatureSensor.step, TemperatureSensor.set_on_temperature_change_handler,
          World.alloc] using hp
      have hw : (TemperatureSensor.step s w (TempOp.setHandler rc)).world.nextPtr
          = w.nextPtr + 1 := by
        simp [TemperatureSensor.step, TemperatureSensor.set_on_temperature_change_handler,
          World.alloc]
      constructor
      · rw [hw]
        cases hpw
        exact Nat.lt_succ_self _
      · rw [releases_append, hev p, h3 p (le_of_eq hpw)]
    · intro p hp
      have hw : (TemperatureSensor.step s w (TempOp.setHandler rc)).world.nextPtr
          = w.nextPtr + 1 := by
        simp [TemperatureSensor.step, TemperatureSensor.set_on_temperature_change_handler,
          World.alloc]
      rw [hw] at hp
      rw [releases_append, hev p, h3 p (Nat.le_of_succ_le hp)]
  | removeHandler rc =>
    cases hcb : s.cb with
    | none =>
      have hev : ∀ p,
          releases (TemperatureSensor.step s w (TempOp.removeHandler rc)).events p = 0 := by
        intro p
        simp [TemperatureSensor.step, TemperatureSensor.remove_on_temperature_change_handler,
          TemperatureSensor.drop_callback, hcb, releases_cons, releases_nil]
      refine ⟨?_, ?_, ?_⟩
      · intro p
        rw [releases_append, hev p]
        exact h1 p
      · intro p hp
        simp [TemperatureSensor.step, TemperatureSensor.remove_on_temperature_change_handler,
          TemperatureSensor.drop_callback, hcb] at hp
      · intro p hp
        rw [releases_append, hev p, h3 p hp]
    | some q =>
      obtain ⟨hqw, hqr⟩ := h2 q hcb
      have hev : ∀ p,
          releases (TemperatureSensor.step s w (TempOp.removeHandler rc)).events p
            = if q = p then 1 else 0 := by
        intro p
        by_cases hqp : q = p <;>
          simp [TemperatureSensor.step, TemperatureSensor.remove_on_temperature_change_handler,
            TemperatureSensor.drop_callback, hcb, releases_cons, releases_nil, hqp]
      refine ⟨?_, ?_, ?_⟩
      · intro p
        rw [releases_append, hev p]
        by_cases hqp : q = p
        · subst hqp
          simp [hqr]
        · simpa [hqp] using h1 p
      · intro p hp
        simp [TemperatureSensor.step, TemperatureSensor.remove_on_temperature_change_handler,
          TemperatureSensor.drop_callback, hcb] at hp
      · intro p hp
        have hqp : q ≠ p := fun he => absurd (he ▸ hqw) (not_lt.mpr hp)
        rw [releases_append, hev p, h3 p hp]
        simp [hqp]

theorem releaseInv_run (ops : List TempOp) (s : TemperatureSensor) (w : World) (tr : List Event)
    (h : ReleaseInv s w tr) :
    ReleaseInv (TemperatureSensor.run s w ops).state (TemperatureSensor.run s w ops).world
      (tr ++ (TemperatureSensor.run s w ops).events) := by
  induction ops generalizing s w tr with
  | nil =>
    simpa [TemperatureSensor.run] using h
  | cons op ops ih =>
    have hstep := releaseInv_step s w tr op h
    have := ih (TemperatureSensor.step s w op).state (TemperatureSensor.step s w op).world
      (tr ++ (TemperatureSensor.step s w op).events) hstep
    simpa [TemperatureSensor.run, List.append_assoc] using this

theorem releaseInv_drop (s : TemperatureSensor) (w : World) (tr : List Event)
    (h : ReleaseInv s w tr) (p : Ptr) :
    releases (tr ++ TemperatureSensor.drop s) p ≤ 1 := by
  obtain ⟨h1, h2, h3⟩ := h
  cases hcb : s.cb with
  | none =>
    have hev : releases (TemperatureSensor.drop s) p = 0 := by
      simp [TemperatureSensor.drop, TemperatureSensor.drop_callback, hcb,
        releases_cons, releases_nil]
    rw [releases_append, hev]
    exact h1 p
  | some q =>
    obtain ⟨hqw, hqr⟩ := h2 q hcb
    have hev : releases (TemperatureSensor.drop s) p = if q = p then 1 else 0 := by
      by_cases hqp : q = p <;>
        simp [TemperatureSensor.drop, TemperatureSensor.drop_callback, hcb,
          releases_cons, releases_nil, hqp]
    rw [releases_append, hev]
    by_cases hqp : q = p
    · subst hqp
      simp [hqr]
    · simpa [hqp] using h1 p

theorem releaseInv_init (chanOut : Ptr) (createRc : Int) :
    ReleaseInv (TemperatureSensor.new chanOut createRc).fst World.init
      (TemperatureSensor.new chanOut createRc).snd := by
  refine ⟨?_, ?_, ?_⟩ <;>
    intro p <;>
    simp [TemperatureSensor.new, World.init, releases_cons, releases_nil]

/-! ## Helper: shape of the `SoundSensor` destructor trace -/

theorem soundSensor_drop_eq (s : SoundSensor) (a : Bool) (irc crc : Int) :
    SoundSensor.drop s a irc crc =
      [Event.nativeGetAttached]
        ++ (match (Phidget.is_open a irc).fst with
            | Except.ok true => [Event.nativeClose]
            | _ => [])
        ++ [Event.nativeDelete]
        ++ drop_cb s.cb ++ drop_cb s.attach_cb ++ drop_cb s.detach_cb := by
  cases hc : check_ret irc with
  | ok v =>
    cases a <;> simp [SoundSensor.drop, Phidget.is_open, Phidget.close, hc]
  | error e =>
    simp [SoundSensor.drop, Phidget.is_open, hc]

/-! ## Claims -/

/-- C1, counterexample.  On a `TemperatureSensor` whose slot already holds the
context at address 1, a fresh `set_on_temperature_change_handler` call installs
the newly allocated context (address 2) in the slot without ever releasing the
previous context — no `releaseCtx 1` effect occurs — and without issuing the
native unregistration call.  This refutes the claim that a registration over an
occupied slot first releases the previous context and issues the native
unregistration before installing the new pointer. -/
theorem C1_counterexample :
    (TemperatureSensor.set_on_temperature_change_handler ⟨5, some 1⟩ ⟨2⟩ 0).state.cb = some 2
    ∧ releases (TemperatureSensor.set_on_temperature_change_handler ⟨5, some 1⟩ ⟨2⟩ 0).events 1
        = 0
    ∧ Event.releaseCtx 1 ∉
        (TemperatureSensor.set_on_temperature_change_handler ⟨5, some 1⟩ ⟨2⟩ 0).events
    ∧ Event.nativeSetTempChangeHandler false 0 ∉
        (TemperatureSensor.set_on_temperature_change_handler ⟨5, some 1⟩ ⟨2⟩ 0).events := by
  decide

/-- C1, amended.  A fresh registration through
`set_on_temperature_change_handler` or `set_on_spl_change_handler` releases no
context at all and issues no native unregistration call: it simply overwrites
the slot with the freshly allocated context pointer.  A previously stored
context is therefore leaked (it is never released by this call — so in
particular it is also never freed twice). -/
theorem C1_registration_overwrites_without_release (s : TemperatureSensor) (s2 : SoundSensor)
    (w : World) (rc : Int) (p : Ptr) :
    releases (TemperatureSensor.set_on_temperature_change_handler s w rc).events p = 0
    ∧ (TemperatureSensor.set_on_temperature_change_handler s w rc).state.cb = some w.nextPtr
    ∧ Event.nativeSetTempChangeHandler false 0 ∉
        (TemperatureSensor.set_on_temperature_change_handler s w rc).events
    ∧ releases (SoundSensor.set_on_spl_change_handler s2 w rc).events p = 0
    ∧ (SoundSensor.set_on_spl_change_handler s2 w rc).state.cb = some w.nextPtr
    ∧ Event.nativeSetSPLChangeHandler false 0 ∉
        (SoundSensor.set_on_spl_change_handler s2 w rc).events := by
  refine ⟨?_, rfl, ?_, ?_, rfl, ?_⟩ <;>
    simp [TemperatureSensor.set_on_temperature_change_handler,
      SoundSensor.set_on_spl_change_handler, World.alloc, releases_cons, releases_nil]

/-- C2, counterexample.  Dropping a `TemperatureSensor` never issues a close
call: its destructor trace is exactly the native delete followed by the release
of the stored callback context, with no `nativeClose` anywhere — even though
the claim requires a close as the first teardown step whenever the channel is
still open (the trace does not even consult the open state). -/
theorem C2_counterexample :
    Event.nativeClose ∉ TemperatureSensor.drop ⟨5, some 3⟩
    ∧ TemperatureSensor.drop ⟨5, some 3⟩ = [Event.nativeDelete, Event.releaseCtx 3] := by
  decide

/-- C2, amended.  `SoundSensor`'s destructor follows the claimed order: it
queries the open state, closes exactly when the query answered `Ok(true)`,
then deletes the native handle, then releases the three callback slots in
order.  `TemperatureSensor`'s destructor, however, performs only the delete
followed by the callback release: it never closes the channel (its trace
contains no `nativeClose` whatever the open state of the channel may be). -/
theorem C2_teardown_order (s : SoundSensor) (t : TemperatureSensor) (a : Bool)
    (irc crc : Int) :
    Event.nativeClose ∉ TemperatureSensor.drop t
    ∧ TemperatureSensor.drop t = Event.nativeDelete :: (TemperatureSensor.drop_callback t).snd
    ∧ ((Phidget.is_open a irc).fst = Except.ok true →
        SoundSensor.drop s a irc crc =
          [Event.nativeGetAttached, Event.nativeClose, Event.nativeDelete]
            ++ drop_cb s.cb ++ drop_cb s.attach_cb ++ drop_cb s.detach_cb)
    ∧ ((Phidget.is_open a irc).fst ≠ Except.ok true →
        SoundSensor.drop s a irc crc =
          [Event.nativeGetAttached, Event.nativeDelete]
            ++ drop_cb s.cb ++ drop_cb s.attach_cb ++ drop_cb s.detach_cb) := by
  refine ⟨?_, rfl, ?_, ?_⟩
  · cases hcb : t.cb <;>
      simp [TemperatureSensor.drop, TemperatureSensor.drop_callback, hcb]
  · intro h
    rw [soundSensor_drop_eq, h]
    rfl
  · intro h
    rw [soundSensor_drop_eq]
    cases hfst : (Phidget.is_open a irc).fst with
    | ok b =>
      cases b
      · rfl
      · exact absurd hfst h
    | error e => rfl

/-- C2, witness for the amended theorem at a concrete input: a `SoundSensor`
with all three slots occupied, whose open-state query answers `Ok(true)`,
tears down as close, delete, then the three releases. -/
theorem C2_witness :
    SoundSensor.drop ⟨5, some 1, some 2, some 3⟩ true 0 0 =
      [Event.nativeGetAttached, Event.nativeClose, Event.nativeDelete,
       Event.releaseCtx 1, Event.releaseCtx 2, Event.releaseCtx 3] :=
  ((C2_teardown_order ⟨5, some 1, some 2, some 3⟩ ⟨5, none⟩ true 0 0).2.2.1 (by decide)).trans
    (by decide)

/-- C3, confirmed.  Over every sequence of managed-side operations on one
`TemperatureSensor` (any interleaving of handler registration and removal,
each with an arbitrary native status answer, terminated by the destructor),
every context address is released at most once; and in the particular sequence
register → remove → drop, the registered context (address 1) is released
exactly once. -/
theorem C3_release_at_most_once (chanOut : Ptr) (createRc : Int) (ops : List TempOp)
    (p : Ptr) (r₁ r₂ : Int) :
    releases (TemperatureSensor.lifecycle chanOut createRc ops) p ≤ 1
    ∧ releases (TemperatureSensor.lifecycle chanOut createRc
        [TempOp.setHandler r₁, TempOp.removeHandler r₂]) 1 = 1 := by
  constructor
  · have h0 := releaseInv_init chanOut createRc
    have h1 := releaseInv_run ops (TemperatureSensor.new chanOut createRc).fst World.init
      (TemperatureSensor.new chanOut createRc).snd h0
    have h2 := releaseInv_drop _ _ _ h1 p
    simpa [TemperatureSensor.lifecycle, List.append_assoc] using h2
  · rfl

/-- C4, confirmed.  A trampoline invocation with a non-null context invokes the
registered closure exactly once with semantically identical arguments: the
temperature trampoline passes the received value unchanged, and the SPL
trampoline passes `db`, `db_a`, `db_c` unchanged and reconstructs the octaves
pointer into an array of exactly 10 elements (the first ten readable values),
failing loudly with the source's `expect` message when ten elements cannot be
obtained. -/
theorem C4_trampoline_passthrough (chan ctx : Ptr) (t db dbA dbC : F64) (mem : List F64)
    (h : ctx ≠ 0) :
    TemperatureSensor.on_temperature_change chan ctx t = [Event.invokeTempCb ctx chan t]
    ∧ (10 ≤ mem.length →
        SoundSensor.on_spl_change chan ctx db dbA dbC mem =
          TrampolineOut.ok [Event.invokeSPLCb ctx chan db dbA dbC (mem.take 10)]
        ∧ (mem.take 10).length = 10)
    ∧ (mem.length < 10 →
        SoundSensor.on_spl_change chan ctx db dbA dbC mem =
          TrampolineOut.panicked "Octaves array must be 10 elements long") := by
  refine ⟨?_, ?_, ?_⟩
  · simp [TemperatureSensor.on_temperature_change, h]
  · intro hlen
    have htake : (mem.take 10).length = 10 := by
      rw [List.length_take]
      omega
    exact ⟨by simp [SoundSensor.on_spl_change, h, htake, SoundSensor.fromHandle], htake⟩
  · intro hlen
    simp [SoundSensor.on_spl_change, h]
    exact hlen

/-- C4, witness: with context 3 and handle 5, the temperature trampoline
forwards 42 unchanged, and the SPL trampoline forwards 1, 2, 4 and the ten
values found at the octaves pointer. -/
theorem C4_witness :
    TemperatureSensor.on_temperature_change 5 3 42 = [Event.invokeTempCb 3 5 42]
    ∧ SoundSensor.on_spl_change 5 3 1 2 4 [10, 11, 12, 13, 14, 15, 16, 17, 18, 19] =
        TrampolineOut.ok
          [Event.invokeSPLCb 3 5 1 2 4 [10, 11, 12, 13, 14, 15, 16, 17, 18, 19]] :=
  ⟨(C4_trampoline_passthrough 5 3 42 1 2 4 [10, 11, 12, 13, 14, 15, 16, 17, 18, 19]
      (by decide)).1,
   ((C4_trampoline_passthrough 5 3 42 1 2 4 [10, 11, 12, 13, 14, 15, 16, 17, 18, 19]
      (by decide)).2.1 (by decide)).1.trans (by decide)⟩

/-- C5, confirmed.  A trampoline invocation performs no teardown effect: the
temporary view sensor built from the supplied handle is discarded by
suppressing its destructor (`mem::forget`), so none of the four trampolines
ever emits a native delete, a close, or a release of a registered callback
context. -/
theorem C5_trampolines_no_teardown (chan ctx phid : Ptr) (t db dbA dbC : F64)
    (mem : List F64) (evs : List Event) (p : Ptr) :
    Event.nativeDelete ∉ TemperatureSensor.on_temperature_change chan ctx t
    ∧ Event.nativeClose ∉ TemperatureSensor.on_temperature_change chan ctx t
    ∧ Event.releaseCtx p ∉ TemperatureSensor.on_temperature_change chan ctx t
    ∧ (SoundSensor.on_spl_change chan ctx db dbA dbC mem = TrampolineOut.ok evs →
        Event.nativeDelete ∉ evs ∧ Event.nativeClose ∉ evs ∧ Event.releaseCtx p ∉ evs)
    ∧ Event.nativeDelete ∉ SoundSensor.on_attach phid ctx
    ∧ Event.nativeClose ∉ SoundSensor.on_attach phid ctx
    ∧ Event.releaseCtx p ∉ SoundSensor.on_attach phid ctx
    ∧ Event.nativeDelete ∉ SoundSensor.on_detach phid ctx
    ∧ Event.nativeClose ∉ SoundSensor.on_detach phid ctx
    ∧ Event.releaseCtx p ∉ SoundSensor.on_detach phid ctx := by
  refine ⟨?_, ?_, ?_, ?_, ?_, ?_, ?_, ?_, ?_, ?_⟩
  · by_cases h : ctx = 0 <;> simp [TemperatureSensor.on_temperature_change, h]
  · by_cases h : ctx = 0 <;> simp [TemperatureSensor.on_temperature_change, h]
  · by_cases h : ctx = 0 <;> simp [TemperatureSensor.on_temperature_change, h]
  · intro heq
    by_cases h : ctx = 0
    · simp [SoundSensor.on_spl_change, h] at heq
      subst heq
      simp
    · by_cases hlen : 10 ≤ mem.length
      · simp [SoundSensor.on_spl_change, h, hlen, SoundSensor.fromHandle] at heq
        subst heq
        simp
      · simp [SoundSensor.on_spl_change, h, hlen] at heq
  · by_cases h : ctx = 0 <;> simp [SoundSensor.on_attach, SoundSensor.fromHandle, h]
  · by_cases h : ctx = 0 <;> simp [SoundSensor.on_attach, SoundSensor.fromHandle, h]
  · by_cases h : ctx = 0 <;> simp [SoundSensor.on_attach, SoundSensor.fromHandle, h]
  · by_cases h : ctx = 0 <;> simp [SoundSensor.on_detach, SoundSensor.fromHandle, h]
  · by_cases h : ctx = 0 <;> simp [SoundSensor.on_detach, SoundSensor.fromHandle, h]
  · by_cases h : ctx = 0 <;> simp [SoundSensor.on_detach, SoundSensor.fromHandle, h]

/-- C5, witness: a concrete SPL trampoline invocation returns only the
closure-invocation effect, whose event list contains no native delete. -/
theorem C5_witness :
    Event.nativeDelete ∉ [Event.invokeSPLCb 3 5 1 2 4 [0, 0, 0, 0, 0, 0, 0, 0, 0, 0]]
    ∧ Event.nativeClose ∉ [Event.invokeSPLCb 3 5 1 2 4 [0, 0, 0, 0, 0, 0, 0, 0, 0, 0]]
    ∧ Event.releaseCtx 9 ∉ [Event.invokeSPLCb 3 5 1 2 4 [0, 0, 0, 0, 0, 0, 0, 0, 0, 0]] :=
  (C5_trampolines_no_teardown 5 3 7 0 1 2 4 [0, 0, 0, 0, 0, 0, 0, 0, 0, 0]
    [Event.invokeSPLCb 3 5 1 2 4 [0, 0, 0, 0, 0, 0, 0, 0, 0, 0]] 9).2.2.2.1 (by decide)

/-- C6, confirmed.  `remove_on_temperature_change_handler` first issues the
native deregistration call with a null function pointer and null context and
only then releases the stored context (exactly once, leaving the slot empty);
when no handler is stored the release step is a no-op, and in every case the
method returns the native call's translated status. -/
theorem C6_remove_handler (s : TemperatureSensor) (rc : Int) :
    (TemperatureSensor.remove_on_temperature_change_handler s rc).ret = check_ret rc
    ∧ (TemperatureSensor.remove_on_temperature_change_handler s rc).state.cb = none
    ∧ (s.cb = none →
        (TemperatureSensor.remove_on_temperature_change_handler s rc).events =
          [Event.nativeSetTempChangeHandler false 0])
    ∧ (∀ p, s.cb = some p →
        (TemperatureSensor.remove_on_temperature_change_handler s rc).events =
          [Event.nativeSetTempChangeHandler false 0, Event.releaseCtx p]
        ∧ releases (TemperatureSensor.remove_on_temperature_change_handler s rc).events p
            = 1) := by
  refine ⟨rfl, ?_, ?_, ?_⟩
  · cases hcb : s.cb <;>
      simp [TemperatureSensor.remove_on_temperature_change_handler,
        TemperatureSensor.drop_callback, hcb]
  · intro hcb
    simp [TemperatureSensor.remove_on_temperature_change_handler,
      TemperatureSensor.drop_callback, hcb]
  · intro p hcb
    constructor <;>
      simp [TemperatureSensor.remove_on_temperature_change_handler,
        TemperatureSensor.drop_callback, hcb, releases_cons, releases_nil]

/-- C6, witness: removing the handler of a sensor holding context 3 issues the
null-deregistration first and then releases context 3. -/
theorem C6_witness :
    (TemperatureSensor.remove_on_temperature_change_handler ⟨5, some 3⟩ 0).events =
      [Event.nativeSetTempChangeHandler false 0, Event.releaseCtx 3] :=
  ((C6_remove_handler ⟨5, some 3⟩ 0).2.2.2 3 rfl).1

/-- C7, counterexample.  The native create call's status is discarded by both
constructors: `new` with a failing status (-1) is indistinguishable from `new`
with a success status — the constructor's type carries no `Result` and the
returned sensor and trace are identical — so a create failure is not reported
to the caller, contrary to the claim. -/
theorem C7_counterexample :
    TemperatureSensor.new 0 (-1) = TemperatureSensor.new 0 0
    ∧ SoundSensor.new 0 (-1) = SoundSensor.new 0 0 := by
  decide

/-- C7, amended.  Native-call failures in the reading accessors and the
handler registration/removal methods are surfaced immediately to the caller as
`Result` values carrying the translated status; the one exception is the
native create call in `TemperatureSensor::new` and `SoundSensor::new`, whose
status is discarded — `new` returns the sensor unconditionally and reports no
failure. -/
theorem C7_failures_surfaced_except_create (t : TemperatureSensor) (s : SoundSensor)
    (w : World) (rc : Int) (v : F64) (h : rc ≠ 0) :
    TemperatureSensor.temperature t rc v = Except.error rc
    ∧ SoundSensor.db s rc v = Except.error rc
    ∧ (TemperatureSensor.set_on_temperature_change_handler t w rc).ret = Except.error rc
    ∧ (TemperatureSensor.remove_on_temperature_change_handler t rc).ret = Except.error rc
    ∧ (SoundSensor.set_on_spl_change_handler s w rc).ret = Except.error rc
    ∧ (SoundSensor.set_on_attach_handler s w rc).ret = Except.error rc
    ∧ (SoundSensor.set_on_detach_handler s w rc).ret = Except.error rc
    ∧ TemperatureSensor.new 5 rc = TemperatureSensor.new 5 0
    ∧ SoundSensor.new 5 rc = SoundSensor.new 5 0 := by
  have hc : check_ret rc = Except.error rc := by
    simp [check_ret, h]
  refine ⟨?_, ?_, ?_, ?_, ?_, ?_, ?_, rfl, rfl⟩ <;>
    simp [TemperatureSensor.temperature, SoundSensor.db,
      TemperatureSensor.set_on_temperature_change_handler,
      TemperatureSensor.remove_on_temperature_change_handler,
      SoundSensor.set_on_spl_change_handler, SoundSensor.set_on_attach_handler,
      SoundSensor.set_on_detach_handler, hc]

/-- C7, witness for the amended theorem: with failing status -1, a temperature
read and an attach-handler registration both report the error. -/
theorem C7_witness :
    TemperatureSensor.temperature ⟨5, none⟩ (-1) 0 = Except.error (-1)
    ∧ (SoundSensor.set_on_attach_handler ⟨5, none, none, none⟩ ⟨1⟩ (-1)).ret
        = Except.error (-1) :=
  ⟨(C7_failures_surfaced_except_create ⟨5, none⟩ ⟨5, none, none, none⟩ ⟨1⟩ (-1) 0
      (by decide)).1,
   (C7_failures_surfaced_except_create ⟨5, none⟩ ⟨5, none, none, none⟩ ⟨1⟩ (-1) 0
      (by decide)).2.2.2.2.2.1⟩

/-- C8, confirmed.  Every trampoline invoked with a null context pointer is a
complete no-op: the effect trace is empty (no closure invocation, no view
construction, no state change) and the SPL trampoline returns normally. -/
theorem C8_null_context_noop (chan phid : Ptr) (t db dbA dbC : F64) (mem : List F64) :
    TemperatureSensor.on_temperature_change chan 0 t = []
    ∧ SoundSensor.on_spl_change chan 0 db dbA dbC mem = TrampolineOut.ok []
    ∧ SoundSensor.on_attach phid 0 = []
    ∧ SoundSensor.on_detach phid 0 = [] := by
  refine ⟨?_, ?_, ?_, ?_⟩ <;>
    simp [TemperatureSensor.on_temperature_change, SoundSensor.on_spl_change,
      SoundSensor.on_attach, SoundSensor.on_detach]

/-- C9, confirmed.  The registration methods differ in when they update the
stored slot: `set_on_temperature_change_handler` and
`set_on_spl_change_handler` store the fresh context pointer in the slot before
the native call, so the slot holds the new pointer whatever status the native
call returns; `set_on_attach_handler` and `set_on_detach_handler` store it
only after a successful native call, so on failure the sensor state is
entirely unchanged and the freshly allocated context is never recorded. -/
theorem C9_slot_update_on_error_differs (t : TemperatureSensor) (s : SoundSensor) (w : World)
    (rc : Int) :
    (TemperatureSensor.set_on_temperature_change_handler t w rc).state.cb = some w.nextPtr
    ∧ (SoundSensor.set_on_spl_change_handler s w rc).state.cb = some w.nextPtr
    ∧ (rc ≠ 0 → (SoundSensor.set_on_attach_handler s w rc).state = s)
    ∧ (rc = 0 → (SoundSensor.set_on_attach_handler s w rc).state.attach_cb = some w.nextPtr)
    ∧ (rc ≠ 0 → (SoundSensor.set_on_detach_handler s w rc).state = s)
    ∧ (rc = 0 → (SoundSensor.set_on_detach_handler s w rc).state.detach_cb = some w.nextPtr)
    := by
  refine ⟨rfl, rfl, ?_, ?_, ?_, ?_⟩ <;> intro h <;>
    simp [SoundSensor.set_on_attach_handler, SoundSensor.set_on_detach_handler,
      World.alloc, check_ret, h]

/-- C9, witness: a failing attach registration (status 7) leaves the sensor
unchanged, while a successful one (status 0) records the fresh context. -/
theorem C9_witness :
    (SoundSensor.set_on_attach_handler ⟨5, none, none, none⟩ ⟨1⟩ 7).state
      = (⟨5, none, none, none⟩ : SoundSensor)
    ∧ (SoundSensor.set_on_attach_handler ⟨5, none, none, none⟩ ⟨1⟩ 0).state.attach_cb
        = some 1 :=
  ⟨(C9_slot_update_on_error_differs ⟨5, none⟩ ⟨5, none, none, none⟩ ⟨1⟩ 7).2.2.1 (by decide),
   (C9_slot_update_on_error_differs ⟨5, none⟩ ⟨5, none, none, none⟩ ⟨1⟩ 0).2.2.2.1 rfl⟩

/-- C10, confirmed.  The stub accessors `db_a` and `db_c` never return a value
for any sensor state: every call ends in the `unimplemented!()` panic with the
message "not implemented" — `CallOutcome.panicked`, which by constructor
disjointness is neither an `Ok` value nor a typed error. -/
theorem C10_stub_accessors_always_panic (s : SoundSensor) :
    SoundSensor.db_a s = CallOutcome.panicked "not implemented"
    ∧ SoundSensor.db_c s = CallOutcome.panicked "not implemented" :=
  ⟨rfl, rfl⟩
